import Mathlib

/-!
Verification development for the ZKredit credit-decision protocol.

The first part embeds, directly from the repository's Python sources,
the functions that exist under src/scripts:
  - verify_proof_locally        (test_proof.py)
  - _generate_mock_proof        (test_e2e.py, E2ETestRunner)
  - _simulate_transaction       (test_e2e.py, E2ETestRunner)
  - the TEST_USERS records      (test_e2e.py)

The second part models the core decision engine (UnderwritingPolicy,
ReplayGuard, ModelCommitment binding and the submission pipeline): these
components are implemented in the repository's on-chain contracts, which
are not part of the provided sources — the scripts only simulate or
narrate them. Those definitions are modelled from the spec, with the
numeric policy constants grounded in the thresholds the simulation in
test_e2e.py uses (3000 bps DTI cap, 3000·10^18 minimum income, minimum
tier 50, high-tier threshold 80).
-/

namespace ZKredit

/-- A TEST_USERS record from test_e2e.py (the fields the scripts read). -/
structure User where
  name : String
  income : Nat
  debt : Nat
  dti : Nat
  credit_score : Nat
  employment_years : Nat
  expected_result : String
deriving DecidableEq

/-- TEST_USERS["alice"] from test_e2e.py. -/
def alice : User :=
  { name := "Alice Johnson", income := 8000 * 10^18, debt := 2000 * 10^18,
    dti := 2500, credit_score := 85, employment_years := 5,
    expected_result := "approve" }

/-- TEST_USERS["bob"] from test_e2e.py. -/
def bob : User :=
  { name := "Bob Smith", income := 4000 * 10^18, debt := 3500 * 10^18,
    dti := 8750, credit_score := 40, employment_years := 1,
    expected_result := "reject" }

/-- TEST_USERS["charlie"] from test_e2e.py. -/
def charlie : User :=
  { name := "Charlie Davis", income := 6000 * 10^18, debt := 1500 * 10^18,
    dti := 2500, credit_score := 65, employment_years := 3,
    expected_result := "approve" }

/-- The proof dictionary consumed by verify_proof_locally in test_proof.py.
A key that may be absent from the Python dict is an Option field; the
values are the well-typed shapes the rest of the script produces. -/
structure ProofDict where
  pA : Option (List Int)
  pB : Option (List (List Int))
  pC : Option (List Int)
  pubSignals : Option (List Int)
deriving DecidableEq

/-- verify_proof_locally from test_proof.py: returns false unless all four
keys are present; then returns false if any public signal is negative;
otherwise returns true. No other field is inspected. -/
def verify_proof_locally (proof : ProofDict) : Bool :=
  if proof.pA.isSome && proof.pB.isSome && proof.pC.isSome && proof.pubSignals.isSome then
    (proof.pubSignals.getD []).all (fun sig => ! decide (sig < 0))
  else
    false

/-- The mock proof component dictionary built by _generate_mock_proof. -/
structure MockProof where
  pi_a : List Nat
  pi_b : List (List Nat)
  pi_c : List Nat
deriving DecidableEq

/-- The value returned by _generate_mock_proof in test_e2e.py. -/
structure MockProofData where
  proof : MockProof
  public_signals : List Nat
deriving DecidableEq

/-- The constant model hash baked into _generate_mock_proof:
int.from_bytes of the hex bytes a1 b2 c3 d4 e5 f6, big-endian. -/
def mockModelHash : Nat := 0xa1b2c3d4e5f6

/-- _generate_mock_proof from test_e2e.py. The SHA-256 hex digest of the
sorted JSON dump of the user record is abstracted as the composition of
the parameters sha256hexdigest and jsonDumpsSorted, and Python's
int(s, 16) as hexToNat; the slicing of the 64-character digest and the
assembly of the result mirror the source. -/
def generate_mock_proof (sha256hexdigest : String → String) (hexToNat : String → Nat)
    (jsonDumpsSorted : User → String) (user : User) : MockProofData :=
  let seed := sha256hexdigest (jsonDumpsSorted user)
  { proof :=
      { pi_a := [hexToNat (seed.take 16), hexToNat ((seed.drop 16).take 16)]
        pi_b := [[hexToNat ((seed.drop 32).take 16), hexToNat ((seed.drop 48).take 16)],
                 [hexToNat (seed.take 16), hexToNat ((seed.drop 16).take 16)]]
        pi_c := [hexToNat ((seed.drop 32).take 16), hexToNat ((seed.drop 48).take 16)] }
    public_signals := [user.income, user.dti, mockModelHash] }

/-- The status dictionary _simulate_transaction returns, restricted to the
fields the test assertions read (status, reason, collateral_ratio). -/
inductive TxResult where
  | rejected (reason : String)
  | error
  | approved (collateral_ratio : Nat)
deriving DecidableEq

/-- _simulate_transaction from test_e2e.py: the if/elif chain over the user
record, in source order (DTI cap 3000 bps, then minimum income
3000·10^18, then minimum credit score 50, then the 120/150 ratio split at
score 80). The dti-too-high branch inspects expected_result and returns a
bare error status when the user was expected to be approved. -/
def simulate_transaction (user : User) : TxResult :=
  if user.dti > 3000 then
    if user.expected_result = "reject" then TxResult.rejected "fails constraint checks"
    else TxResult.error
  else if user.income < 3000 * 10^18 then TxResult.rejected "fails constraint checks"
  else if user.credit_score < 50 then TxResult.rejected "fails constraint checks"
  else if user.credit_score ≥ 80 then TxResult.approved 120
  else TxResult.approved 150

/-- The typed public claims of spec §3 (PublicClaims). -/
structure PublicClaims where
  income : Nat
  debt : Nat
  debt_to_income_bps : Nat
  credit_tier : Nat
  model_hash : Nat
deriving DecidableEq

/-- An underwriting outcome: Approved with a collateral ratio in basis
points, or Rejected with a reason string. -/
inductive Outcome where
  | Approved (collateral_ratio_bps : Nat)
  | Rejected (reason : String)
deriving DecidableEq

/-- Policy constant MIN_INCOME, grounded in the 3000·10^18 minimum-income
threshold of the simulation in test_e2e.py. -/
def MIN_INCOME : Nat := 3000 * 10^18

/-- Policy constant MIN_TIER, grounded in the minimum credit score 50 of
the simulation in test_e2e.py. -/
def MIN_TIER : Nat := 50

/-- Policy constant HIGH_TIER_THRESHOLD, grounded in the score-80 ratio
split of the simulation in test_e2e.py. -/
def HIGH_TIER_THRESHOLD : Nat := 80

/-- Modelled from the spec: UnderwritingPolicy.decide (§4.5). The ordered
rule list — DTI cap, minimum income, minimum tier, then the 12000/15000
basis-point ratio split at HIGH_TIER_THRESHOLD — is not implemented under
src/ (it lives in the on-chain contracts the scripts only simulate). -/
def UnderwritingPolicy.decide (claims : PublicClaims) : Outcome :=
  if claims.debt_to_income_bps > 3000 then Outcome.Rejected "dti_exceeds_limit"
  else if claims.income < MIN_INCOME then Outcome.Rejected "income_below_minimum"
  else if claims.credit_tier < MIN_TIER then Outcome.Rejected "credit_tier_below_minimum"
  else Outcome.Approved (if claims.credit_tier ≥ HIGH_TIER_THRESHOLD then 12000 else 15000)

/-- Result of a ReplayGuard consumption attempt (spec §4.4). -/
inductive ConsumeResult where
  | Consumed
  | AlreadyUsed
deriving DecidableEq

/-- Modelled from the spec: ReplayGuard.try_consume (§4.4), an atomic
insert-if-absent over the set of consumed commitments; the guard itself
is not under src/ (test_e2e.py only prints the expected revert). The
guard's atomicity means concurrent calls behave as some serialization of
the same calls, which is how concurrency is treated below. -/
def ReplayGuard.try_consume (consumed : List Nat) (c : Nat) : ConsumeResult × List Nat :=
  if c ∈ consumed then (ConsumeResult.AlreadyUsed, consumed)
  else (ConsumeResult.Consumed, c :: consumed)

/-- A serialized run of try_consume calls, returning the result each call
observed and the final consumed set. -/
def ReplayGuard.consumeAll (consumed : List Nat) : List Nat → List ConsumeResult × List Nat
  | [] => ([], consumed)
  | c :: cs =>
    ((ReplayGuard.try_consume consumed c).1 ::
        (ReplayGuard.consumeAll (ReplayGuard.try_consume consumed c).2 cs).1,
      (ReplayGuard.consumeAll (ReplayGuard.try_consume consumed c).2 cs).2)

/-- The error taxonomy of spec §7. -/
inductive PipelineError where
  | MalformedProof
  | ProofInvalid
  | SchemaMismatch
  | OutOfRangeField
  | ModelNotFound
  | ModelMismatch
  | AlreadyUsed
  | DuplicateCommitment
deriving DecidableEq

/-- A registered model commitment (spec §3), reduced to the fields the
binding check reads. -/
structure ModelCommitment where
  model_id : Nat
  content_hash : Nat
deriving DecidableEq

/-- A submission, reduced to its replay commitment and declared model id;
the proof bytes and raw public signals are abstracted behind the
verification and extraction parameters of processSubmission. -/
structure Submission where
  commitment : Nat
  model_id : Nat
deriving DecidableEq

/-- The mutable state the pipeline touches: the ReplayGuard's consumed set
and the LoanLedger's decision records. -/
structure PipelineState where
  consumed : List Nat
  ledger : List (Nat × Outcome)
deriving DecidableEq

/-- Modelled from the spec: the end-to-end verification pipeline (§4.7),
which is not under src/. Stages run in order and short-circuit:
ProofVerifier (verifyFn), ClaimExtractor (extractFn), model binding
against the registry (resolve), ReplayGuard consumption, policy decision
(decideFn), ledger record. The policy is a parameter so that theorems can
state that a stage failure never evaluates it. -/
def processSubmission (verifyFn : Submission → Bool)
    (extractFn : Submission → Except PipelineError PublicClaims)
    (resolve : Nat → Option ModelCommitment)
    (decideFn : PublicClaims → Outcome)
    (st : PipelineState) (sub : Submission) :
    Except PipelineError Outcome × PipelineState :=
  if verifyFn sub then
    match extractFn sub with
    | Except.error e => (Except.error e, st)
    | Except.ok claims =>
      match resolve sub.model_id with
      | none => (Except.error PipelineError.ModelNotFound, st)
      | some mc =>
        if claims.model_hash = mc.content_hash then
          match ReplayGuard.try_consume st.consumed sub.commitment with
          | (ConsumeResult.AlreadyUsed, _) => (Except.error PipelineError.AlreadyUsed, st)
          | (ConsumeResult.Consumed, consumed1) =>
            (Except.ok (decideFn claims),
              { consumed := consumed1,
                ledger := (sub.commitment, decideFn claims) :: st.ledger })
        else (Except.error PipelineError.ModelMismatch, st)
  else (Except.error PipelineError.ProofInvalid, st)

/-! ### ReplayGuard lemmas -/

theorem try_consume_of_mem (st : List Nat) (c : Nat) (h : c ∈ st) :
    ReplayGuard.try_consume st c = (ConsumeResult.AlreadyUsed, st) := by
  simp [ReplayGuard.try_consume, h]

theorem try_consume_of_not_mem (st : List Nat) (c : Nat) (h : c ∉ st) :
    ReplayGuard.try_consume st c = (ConsumeResult.Consumed, c :: st) := by
  simp [ReplayGuard.try_consume, h]

theorem mem_try_consume_snd (st : List Nat) (c a : Nat) (h : a ∈ st) :
    a ∈ (ReplayGuard.try_consume st c).2 := by
  by_cases hc : c ∈ st <;> simp [ReplayGuard.try_consume, hc, h]

theorem mem_consumeAll_snd (cs : List Nat) (st : List Nat) (a : Nat) (h : a ∈ st) :
    a ∈ (ReplayGuard.consumeAll st cs).2 := by
  induction cs generalizing st with
  | nil => simpa [ReplayGuard.consumeAll] using h
  | cons c cs ih =>
    simp only [ReplayGuard.consumeAll]
    exact ih _ (mem_try_consume_snd st c a h)

theorem consumeAll_replicate_of_mem (m : Nat) (st : List Nat) (c : Nat) (h : c ∈ st) :
    ReplayGuard.consumeAll st (List.replicate m c) =
      (List.replicate m ConsumeResult.AlreadyUsed, st) := by
  induction m with
  | zero => simp [ReplayGuard.consumeAll]
  | succ k ih =>
    simp [List.replicate_succ, ReplayGuard.consumeAll, try_consume_of_mem st c h, ih]

/-- C1: among N serialized try_consume calls presenting the same
commitment not yet consumed, exactly one observes Consumed and the other
N−1 observe AlreadyUsed; afterwards the commitment is in the consumed set
and stays there under any further sequence of calls. -/
theorem replay_exclusivity (st : List Nat) (c : Nat) (n : Nat)
    (hn : 0 < n) (hc : c ∉ st) :
    (ReplayGuard.consumeAll st (List.replicate n c)).1.count ConsumeResult.Consumed = 1 ∧
    (ReplayGuard.consumeAll st (List.replicate n c)).1.count ConsumeResult.AlreadyUsed = n - 1 ∧
    c ∈ (ReplayGuard.consumeAll st (List.replicate n c)).2 ∧
    ∀ later : List Nat,
      c ∈ (ReplayGuard.consumeAll (ReplayGuard.consumeAll st (List.replicate n c)).2 later).2 := by
  obtain ⟨m, rfl⟩ : ∃ m, n = m + 1 := ⟨n - 1, (Nat.succ_pred_eq_of_pos hn).symm⟩
  have hrun : ReplayGuard.consumeAll st (List.replicate (m + 1) c) =
      (ConsumeResult.Consumed :: List.replicate m ConsumeResult.AlreadyUsed, c :: st) := by
    simp [List.replicate_succ, ReplayGuard.consumeAll, try_consume_of_not_mem st c hc,
      consumeAll_replicate_of_mem m (c :: st) c (List.mem_cons_self c st)]
  refine ⟨?_, ?_, ?_, ?_⟩
  · rw [hrun]
    simp [List.count_cons, List.count_replicate]
  · rw [hrun]
    simp [List.count_cons, List.count_replicate]
  · rw [hrun]
    exact List.mem_cons_self c st
  · intro later
    rw [hrun]
    exact mem_consumeAll_snd later (c :: st) c (List.mem_cons_self c st)

/-- Witness for C1: three calls with commitment 7 on a fresh guard give
one Consumed and two AlreadyUsed. -/
theorem replay_exclusivity_witness :
    (ReplayGuard.consumeAll [] (List.replicate 3 7)).1.count ConsumeResult.Consumed = 1 ∧
    (ReplayGuard.consumeAll [] (List.replicate 3 7)).1.count ConsumeResult.AlreadyUsed = 2 :=
  ⟨(replay_exclusivity [] 7 3 (by decide) (by decide)).1,
   (replay_exclusivity [] 7 3 (by decide) (by decide)).2.1⟩

/-! ### Pipeline and policy theorems -/

/-- C2: when extraction succeeds but the declared model resolves to a
commitment whose content_hash differs from the claims' model_hash, the
pipeline aborts with ModelMismatch, the state (ledger and consumed set)
is unchanged, and the result is the same for every policy function — the
policy is never evaluated. -/
theorem model_mismatch_before_policy
    (verifyFn : Submission → Bool) (extractFn : Submission → Except PipelineError PublicClaims)
    (resolve : Nat → Option ModelCommitment)
    (st : PipelineState) (sub : Submission) (claims : PublicClaims) (mc : ModelCommitment)
    (hv : verifyFn sub = true) (he : extractFn sub = Except.ok claims)
    (hr : resolve sub.model_id = some mc)
    (hm : claims.model_hash ≠ mc.content_hash) :
    ∀ decideFn : PublicClaims → Outcome,
      processSubmission verifyFn extractFn resolve decideFn st sub =
        (Except.error PipelineError.ModelMismatch, st) := by
  intro decideFn
  simp [processSubmission, hv, he, hr, hm]

/-- Witness for C2: a concrete mismatched submission aborts with
ModelMismatch and leaves the empty state untouched. -/
theorem model_mismatch_before_policy_witness :
    processSubmission (fun _ => true)
        (fun _ => Except.ok
          { income := 0, debt := 0, debt_to_income_bps := 0, credit_tier := 0, model_hash := 5 })
        (fun _ => some { model_id := 1, content_hash := 99 })
        UnderwritingPolicy.decide
        { consumed := [], ledger := [] } { commitment := 7, model_id := 1 } =
      (Except.error PipelineError.ModelMismatch, { consumed := [], ledger := [] }) :=
  model_mismatch_before_policy _ _ _ _ _ _ _ rfl rfl rfl (by decide) UnderwritingPolicy.decide

/-- C3: any claims with debt_to_income_bps above 3000 are rejected with
reason dti_exceeds_limit, whatever the other fields hold — the DTI rule
is evaluated first. -/
theorem dti_rule_first (claims : PublicClaims) (h : claims.debt_to_income_bps > 3000) :
    UnderwritingPolicy.decide claims = Outcome.Rejected "dti_exceeds_limit" := by
  simp [UnderwritingPolicy.decide, h]

/-- Witness for C3: dti 3001 with income and tier that also violate their
rules is still rejected for DTI. -/
theorem dti_rule_first_witness :
    UnderwritingPolicy.decide
        { income := 0, debt := 0, debt_to_income_bps := 3001, credit_tier := 0, model_hash := 0 } =
      Outcome.Rejected "dti_exceeds_limit" :=
  dti_rule_first _ (by decide)

/-- C4: every policy rejection carries the reason of the first failing
rule, and every rejection reason is one of the three specific strings —
never a generic failure. -/
theorem rejection_reason_first_failing (claims : PublicClaims) :
    (claims.debt_to_income_bps > 3000 →
      UnderwritingPolicy.decide claims = Outcome.Rejected "dti_exceeds_limit") ∧
    (claims.debt_to_income_bps ≤ 3000 → claims.income < MIN_INCOME →
      UnderwritingPolicy.decide claims = Outcome.Rejected "income_below_minimum") ∧
    (claims.debt_to_income_bps ≤ 3000 → MIN_INCOME ≤ claims.income →
      claims.credit_tier < MIN_TIER →
      UnderwritingPolicy.decide claims = Outcome.Rejected "credit_tier_below_minimum") ∧
    (∀ reason : String, UnderwritingPolicy.decide claims = Outcome.Rejected reason →
      reason = "dti_exceeds_limit" ∨ reason = "income_below_minimum" ∨
        reason = "credit_tier_below_minimum") := by
  refine ⟨fun h1 => by simp [UnderwritingPolicy.decide, h1], ?_, ?_, ?_⟩
  · intro h1 h2
    simp [UnderwritingPolicy.decide, Nat.not_lt.mpr h1, h2]
  · intro h1 h2 h3
    simp [UnderwritingPolicy.decide, Nat.not_lt.mpr h1, Nat.not_lt.mpr h2, h3]
  · intro reason h
    by_cases h1 : claims.debt_to_income_bps > 3000
    · simp [UnderwritingPolicy.decide, h1] at h
      exact Or.inl h.symm
    · by_cases h2 : claims.income < MIN_INCOME
      · simp [UnderwritingPolicy.decide, h1, h2] at h
        exact Or.inr (Or.inl h.symm)
      · by_cases h3 : claims.credit_tier < MIN_TIER
        · simp [UnderwritingPolicy.decide, h1, h2, h3] at h
          exact Or.inr (Or.inr h.symm)
        · simp [UnderwritingPolicy.decide, h1, h2, h3] at h

/-- Witness for C4: a claims object failing only the income rule is
rejected with income_below_minimum. -/
theorem rejection_reason_first_failing_witness :
    UnderwritingPolicy.decide
        { income := 0, debt := 0, debt_to_income_bps := 2500, credit_tier := 90, model_hash := 0 } =
      Outcome.Rejected "income_below_minimum" :=
  (rejection_reason_first_failing _).2.1 (by decide) (by decide)

/-- C5: claims passing all rejection rules are approved with a
12000-basis-point ratio at or above HIGH_TIER_THRESHOLD and 15000 below
it, including both sides of the boundary. -/
theorem tier_threshold_ratio (claims : PublicClaims)
    (h1 : claims.debt_to_income_bps ≤ 3000) (h2 : MIN_INCOME ≤ claims.income)
    (h3 : MIN_TIER ≤ claims.credit_tier) :
    UnderwritingPolicy.decide claims =
      Outcome.Approved (if HIGH_TIER_THRESHOLD ≤ claims.credit_tier then 12000 else 15000) ∧
    (HIGH_TIER_THRESHOLD ≤ claims.credit_tier →
      UnderwritingPolicy.decide claims = Outcome.Approved 12000) ∧
    (claims.credit_tier < HIGH_TIER_THRESHOLD →
      UnderwritingPolicy.decide claims = Outcome.Approved 15000) := by
  have hd : ¬ claims.debt_to_income_bps > 3000 := Nat.not_lt.mpr h1
  have hi : ¬ claims.income < MIN_INCOME := Nat.not_lt.mpr h2
  have ht : ¬ claims.credit_tier < MIN_TIER := Nat.not_lt.mpr h3
  refine ⟨?_, fun h4 => ?_, fun h4 => ?_⟩
  · simp [UnderwritingPolicy.decide, hd, hi, ht, ge_iff_le]
  · simp [UnderwritingPolicy.decide, hd, hi, ht, ge_iff_le, h4]
  · simp [UnderwritingPolicy.decide, hd, hi, ht, ge_iff_le, Nat.not_le.mpr h4]

/-- Witness for C5: credit tier exactly 80 yields 12000 and tier 79
yields 15000. -/
theorem tier_threshold_ratio_witness :
    UnderwritingPolicy.decide
        { income := 3000 * 10^18, debt := 0, debt_to_income_bps := 2500,
          credit_tier := 80, model_hash := 0 } = Outcome.Approved 12000 ∧
    UnderwritingPolicy.decide
        { income := 3000 * 10^18, debt := 0, debt_to_income_bps := 2500,
          credit_tier := 79, model_hash := 0 } = Outcome.Approved 15000 :=
  ⟨(tier_threshold_ratio _ (by decide) (by decide) (by decide)).2.1 (by decide),
   (tier_threshold_ratio _ (by decide) (by decide) (by decide)).2.2 (by decide)⟩

/-- C6: the Alice-equivalent claims (income 8000·10^18, debt 2000·10^18,
dti 2500 bps, tier 85) are approved at 12000 basis points, for any model
hash. -/
theorem alice_scenario (mh : Nat) :
    UnderwritingPolicy.decide
        { income := 8000 * 10^18, debt := 2000 * 10^18, debt_to_income_bps := 2500,
          credit_tier := 85, model_hash := mh } = Outcome.Approved 12000 := by
  norm_num [UnderwritingPolicy.decide, MIN_INCOME, MIN_TIER, HIGH_TIER_THRESHOLD]

/-- C7: a submission that passes verification, extraction and model
binding on a fresh commitment and is then rejected by the policy leaves
its commitment consumed and its decision recorded; resubmitting the same
submission against the resulting state aborts with AlreadyUsed for every
policy function — the policy is not re-evaluated. -/
theorem policy_rejection_consumes_commitment
    (verifyFn : Submission → Bool) (extractFn : Submission → Except PipelineError PublicClaims)
    (resolve : Nat → Option ModelCommitment) (decideFn : PublicClaims → Outcome)
    (st : PipelineState) (sub : Submission) (claims : PublicClaims) (mc : ModelCommitment)
    (reason : String)
    (hv : verifyFn sub = true) (he : extractFn sub = Except.ok claims)
    (hr : resolve sub.model_id = some mc) (hm : claims.model_hash = mc.content_hash)
    (hfresh : sub.commitment ∉ st.consumed)
    (hd : decideFn claims = Outcome.Rejected reason) :
    processSubmission verifyFn extractFn resolve decideFn st sub =
      (Except.ok (Outcome.Rejected reason),
        { consumed := sub.commitment :: st.consumed,
          ledger := (sub.commitment, Outcome.Rejected reason) :: st.ledger }) ∧
    ∀ decideFn2 : PublicClaims → Outcome,
      processSubmission verifyFn extractFn resolve decideFn2
          { consumed := sub.commitment :: st.consumed,
            ledger := (sub.commitment, Outcome.Rejected reason) :: st.ledger } sub =
        (Except.error PipelineError.AlreadyUsed,
          { consumed := sub.commitment :: st.consumed,
            ledger := (sub.commitment, Outcome.Rejected reason) :: st.ledger }) := by
  constructor
  · simp [processSubmission, hv, he, hr, hm, try_consume_of_not_mem st.consumed sub.commitment hfresh, hd]
  · intro decideFn2
    simp [processSubmission, hv, he, hr, hm,
      try_consume_of_mem (sub.commitment :: st.consumed) sub.commitment
        (List.mem_cons_self sub.commitment st.consumed)]

/-- Witness for C7: the Bob-equivalent submission (dti 8750) is rejected
for DTI on first submission; replaying it against the resulting state
returns AlreadyUsed. -/
theorem policy_rejection_consumes_commitment_witness :
    processSubmission (fun _ => true)
        (fun _ => Except.ok
          { income := 4000 * 10^18, debt := 3500 * 10^18, debt_to_income_bps := 8750,
            credit_tier := 40, model_hash := 99 })
        (fun _ => some { model_id := 2, content_hash := 99 })
        UnderwritingPolicy.decide
        { consumed := [7], ledger := [(7, Outcome.Rejected "dti_exceeds_limit")] }
        { commitment := 7, model_id := 2 } =
      (Except.error PipelineError.AlreadyUsed,
        { consumed := [7], ledger := [(7, Outcome.Rejected "dti_exceeds_limit")] }) :=
  (policy_rejection_consumes_commitment (fun _ => true)
      (fun _ => Except.ok
        { income := 4000 * 10^18, debt := 3500 * 10^18, debt_to_income_bps := 8750,
          credit_tier := 40, model_hash := 99 })
      (fun _ => some { model_id := 2, content_hash := 99 })
      UnderwritingPolicy.decide
      { consumed := [], ledger := [] } { commitment := 7, model_id := 2 }
      { income := 4000 * 10^18, debt := 3500 * 10^18, debt_to_income_bps := 8750,
        credit_tier := 40, model_hash := 99 }
      { model_id := 2, content_hash := 99 } "dti_exceeds_limit"
      rfl rfl rfl rfl (by decide) (by decide)).2 UnderwritingPolicy.decide

/-! ### verify_proof_locally and mock-proof theorems -/

/-- C8 counterexample: a structurally malformed proof — empty pA, pB and
pC lists, a wrong element count for any pairing-based proof encoding — is
not rejected at all: verify_proof_locally returns true for it, with no
MalformedProof error kind anywhere in its boolean codomain. -/
theorem malformed_structure_not_rejected :
    verify_proof_locally
        { pA := some [], pB := some [], pC := some [], pubSignals := some [0, 0, 0] } = true := by
  decide

/-- C8 (amended): verify_proof_locally returns false, never throwing, for
well-typed input that is missing one of the keys pA, pB, pC, pubSignals
or that carries a negative public signal; the failure is a plain boolean
false with no distinct MalformedProof error kind, and element counts,
upper field bounds and cryptographic relations are not checked. -/
theorem verify_malformed_returns_false (p : ProofDict) :
    ((p.pA = none ∨ p.pB = none ∨ p.pC = none ∨ p.pubSignals = none) →
      verify_proof_locally p = false) ∧
    (∀ sigs : List Int, p.pubSignals = some sigs → (∃ s ∈ sigs, s < 0) →
      verify_proof_locally p = false) := by
  constructor
  · rintro (h | h | h | h) <;> simp [verify_proof_locally, h]
  · rintro sigs hs ⟨s, hmem, hneg⟩
    by_cases hA : p.pA.isSome
    · by_cases hB : p.pB.isSome
      · by_cases hC : p.pC.isSome
        · simp [verify_proof_locally, hs, hA, hB, hC, List.all_eq_false]
          exact ⟨s, hmem, by simpa using hneg⟩
        · simp [verify_proof_locally, hC]
      · simp [verify_proof_locally, hB]
    · simp [verify_proof_locally, hA]

/-- Witness for the amended C8: an input with all keys missing and an
input with a negative public signal both verify as false. -/
theorem verify_malformed_returns_false_witness :
    verify_proof_locally { pA := none, pB := none, pC := none, pubSignals := none } = false ∧
    verify_proof_locally
        { pA := some [1, 2], pB := some [[1, 2], [3, 4]], pC := some [5, 6],
          pubSignals := some [7, -1, 9] } = false :=
  ⟨(verify_malformed_returns_false _).1 (Or.inl rfl),
   (verify_malformed_returns_false _).2 [7, -1, 9] rfl ⟨-1, by decide, by decide⟩⟩

/-- C9: verify_proof_locally returns true for every input carrying all
four keys whose public signals are all non-negative, for arbitrary pA,
pB, pC values — no relation between proof points and signals is ever
checked. -/
theorem verify_accepts_any_proof_points (pA : List Int) (pB : List (List Int)) (pC : List Int)
    (sigs : List Int) (h : ∀ s ∈ sigs, 0 ≤ s) :
    verify_proof_locally
        { pA := some pA, pB := some pB, pC := some pC, pubSignals := some sigs } = true := by
  simp only [verify_proof_locally, Option.isSome_some, Bool.and_self, if_true, Option.getD_some,
    List.all_eq_true]
  intro s hs
  simpa using h s hs

/-- Witness for C9: garbage proof points with in-range signals verify. -/
theorem verify_accepts_any_proof_points_witness :
    verify_proof_locally
        { pA := some [999999], pB := some [], pC := some [0],
          pubSignals := some [0, 1, 2] } = true :=
  verify_accepts_any_proof_points [999999] [] [0] [0, 1, 2] (by decide)

/-- C10: generate_mock_proof is a pure function of the user record — equal
user data gives identical proof components and public signals — and its
public signals are always the three-element list ending in the constant
mockModelHash, for every user and every hash backend. -/
theorem mock_proof_deterministic (sha256hexdigest : String → String)
    (hexToNat : String → Nat) (jsonDumpsSorted : User → String) :
    (∀ u1 u2 : User, u1 = u2 →
      generate_mock_proof sha256hexdigest hexToNat jsonDumpsSorted u1 =
        generate_mock_proof sha256hexdigest hexToNat jsonDumpsSorted u2) ∧
    (∀ u : User,
      (generate_mock_proof sha256hexdigest hexToNat jsonDumpsSorted u).public_signals =
        [u.income, u.dti, mockModelHash]) ∧
    (∀ u : User,
      (generate_mock_proof sha256hexdigest hexToNat jsonDumpsSorted u).public_signals.length = 3) ∧
    (∀ u : User,
      (generate_mock_proof sha256hexdigest hexToNat jsonDumpsSorted u).public_signals.getLast? =
        some mockModelHash) :=
  ⟨fun u1 u2 h => by rw [h], fun _ => rfl, fun _ => rfl, fun _ => rfl⟩

/-- Witness for C10 at the Alice record with concrete hash backends. -/
theorem mock_proof_deterministic_witness :
    generate_mock_proof id (fun _ => 0) (fun u => u.name) alice =
      generate_mock_proof id (fun _ => 0) (fun u => u.name) alice ∧
    (generate_mock_proof id (fun _ => 0) (fun u => u.name) alice).public_signals =
      [8000 * 10^18, 2500, mockModelHash] :=
  ⟨(mock_proof_deterministic id (fun _ => 0) (fun u => u.name)).1 alice alice rfl,
   (mock_proof_deterministic id (fun _ => 0) (fun u => u.name)).2.1 alice⟩

end ZKredit
